import Mathlib

/-!
Verification of the mesos-go detector and scheduler-driver behaviour.

The ZooKeeper client half (`zkClient` and its operations) is embedded
directly from `src/detector/zkclient.go`: connection, session-event
handling, `disconnect`, `watchChildren` (with its self-re-arming
goroutine, modelled as a trace over the sequence of watch firings),
`list` and `data`.  External effects (the `zk` connection, the
registered callbacks) are modelled by an explicit connector environment
and by emitted trace actions.

The scheduler driver implementation itself is not part of the sources
(only its test file is), so its operations are modelled from the spec
and pinned, where the spec and the tests disagree, by the repository's
own tests; each such definition carries a `Modelled from the spec:`
doc comment.
-/

namespace MesosGo

/-! ### ZooKeeper client data model (from src/detector/zkclient.go) -/

/-- Session states of the zk connection, from the `zk` package as used in
`zkclient.go` (`StateConnecting`, `StateConnected`, `StateSyncConnected`,
`StateDisconnected`, `StateExpired`). -/
inductive ZkSessionState where
  | stateUnknown
  | stateConnecting
  | stateConnected
  | stateSyncConnected
  | stateDisconnected
  | stateExpired
deriving DecidableEq, Repr

/-- Watch event types used by `zkclient.go` (`zk.EventNodeChildrenChanged`
is the only one the client switches on). -/
inductive ZkEventType where
  | eventNone
  | eventNodeChildrenChanged
deriving DecidableEq, Repr

/-- One `zk.Event`: a session state, an event type, a path and an
optional error. -/
structure ZkEvent where
  state : ZkSessionState
  type : ZkEventType
  path : String
  err : Option String
deriving DecidableEq, Repr

/-- The `zkClient` struct.  The `conn` field is passed separately as a
`ZkConnector` environment; the two watcher fields are modelled by the
nil-check the code performs on them (`hasChildrenWatcher`,
`hasErrorWatcher`), with the actual invocations recorded as trace
actions. -/
structure ZkClient where
  hosts : List String
  connTimeoutSeconds : Nat
  connected : Bool
  rootPath : String
  hasChildrenWatcher : Bool
  hasErrorWatcher : Bool
deriving DecidableEq, Repr

/-- Observable calls the client makes into its environment: invoking the
error watcher, invoking the children watcher, and re-arming a watch
(the recursive `watchChildren` call at the end of the watch goroutine). -/
inductive ZkAction where
  | errorCbCall (err : String)
  | childrenCbCall (path : String)
  | rearmCall (path : String)
deriving DecidableEq, Repr

/-- The `zkConnector` interface (`Children`, `ChildrenW`, `Get`) as a
result environment: what each call would return for a given path. -/
structure ZkConnector where
  childrenResult : String → Except String (List String)
  childrenWResult : String → Except String (List String)
  getResult : String → Except String (List Nat)

/-- `newZkClient`: records hosts, a 5 second connection timeout and the
root path; the client starts disconnected with no watchers registered. -/
def newZkClient (hosts : List String) (path : String) : Except String ZkClient :=
  Except.ok { hosts := hosts, connTimeoutSeconds := 5, connected := false,
              rootPath := path, hasChildrenWatcher := false, hasErrorWatcher := false }

/-- `zkClient.disconnect`: the body is a single `return nil` — it reports
success and changes nothing. -/
def ZkClient.disconnect (zkc : ZkClient) : Option String × ZkClient :=
  (none, zkc)

/-- One iteration of the session-event goroutine inside `connect`:
report an event error to the error watcher if one is registered, then
switch on the state — `StateConnected` sets `connected` and closes
`waitConnCh` (the returned flag), `StateSyncConnected` sets `connected`,
`StateDisconnected` calls `disconnect`, `StateExpired` does nothing
(the `disconnect` call there is commented out). -/
def ZkClient.handleSessionEvent (zkc : ZkClient) (e : ZkEvent) :
    ZkClient × List ZkAction × Bool :=
  let errActs : List ZkAction :=
    match e.err with
    | some msg => if zkc.hasErrorWatcher then [ZkAction.errorCbCall msg] else []
    | none => []
  match e.state with
  | ZkSessionState.stateConnecting => (zkc, errActs, false)
  | ZkSessionState.stateConnected => ({ zkc with connected := true }, errActs, true)
  | ZkSessionState.stateSyncConnected => ({ zkc with connected := true }, errActs, false)
  | ZkSessionState.stateDisconnected =>
      let r := zkc.disconnect
      (r.2, errActs, false)
  | ZkSessionState.stateExpired => (zkc, errActs, false)
  | ZkSessionState.stateUnknown => (zkc, errActs, false)

/-- Runs the session-event goroutine over the events delivered before the
connection timeout fires, stopping once `waitConnCh` is closed.  Returns
the resulting client state, the emitted actions, and whether the wait
channel was closed. -/
def runSessionEvents (zkc : ZkClient) : List ZkEvent → ZkClient × List ZkAction × Bool
  | [] => (zkc, [], false)
  | e :: rest =>
    let r1 := zkc.handleSessionEvent e
    if r1.2.2 then (r1.1, r1.2.1, true)
    else
      let r2 := runSessionEvents r1.1 rest
      (r2.1, r1.2.1 ++ r2.2.1, r2.2.2)

/-- Environment for `connect`: the immediate result of `zk.Connect` and
the session events delivered before the 5 second timer fires. -/
structure ZkConnectEnv where
  dialErr : Option String
  eventsBeforeTimeout : List ZkEvent

/-- `zkClient.connect`: if already connected it returns `nil` at once
(no dial).  Otherwise it dials, and waits for the event goroutine to
confirm the connection or for the timeout.  The second component of the
result records whether a new connection attempt (dial) was performed. -/
def ZkClient.connect (env : ZkConnectEnv) (zkc : ZkClient) :
    (Option String × ZkClient) × Bool :=
  if zkc.connected then ((none, zkc), false)
  else
    match env.dialErr with
    | some err => ((some err, zkc), true)
    | none =>
      let r := runSessionEvents zkc env.eventsBeforeTimeout
      if r.2.2 then
        if r.1.connected then ((none, r.1), true)
        else ((some "Unabe to confirm connected state.", r.1), true)
      else ((some "Unable to confirm connection after 5s.", r.1), true)

/-! ### String sorting (Go `sort.Strings`) -/

/-- Byte-wise lexicographic less-or-equal on character lists, the order
Go's `sort.Strings` sorts by. -/
def lexLe : List Char → List Char → Bool
  | [], _ => true
  | _ :: _, [] => false
  | a :: as, b :: bs =>
    if a.toNat < b.toNat then true
    else if b.toNat < a.toNat then false
    else lexLe as bs

/-- Lexicographic less-or-equal on strings. -/
def strLe (a b : String) : Prop := lexLe a.data b.data = true

instance : DecidableRel strLe := fun a b => Bool.decEq (lexLe a.data b.data) true

/-- `sort.Strings(children)`: ascending lexicographic sort. -/
def sortStrings (l : List String) : List String := List.insertionSort strLe l

/-! ### zkClient operations -/

/-- `zkClient.list`: guarded by `connected`; on success returns the
children of `path` sorted ascending. -/
def ZkClient.list (conn : ZkConnector) (zkc : ZkClient) (path : String) :
    Except String (List String) :=
  if !zkc.connected then Except.error "Unable to list children, client not connected."
  else
    match conn.childrenResult path with
    | Except.error e => Except.error e
    | Except.ok children => Except.ok (sortStrings children)

/-- `zkClient.data`: guarded by `connected`; on success returns the raw
payload at `path`. -/
def ZkClient.data (conn : ZkConnector) (zkc : ZkClient) (path : String) :
    Except String (List Nat) :=
  if !zkc.connected then Except.error "Unable to retrieve node data, client not connected."
  else conn.getResult path

/-- The path actually watched: `rootPath + path` unless `path` is empty
or `"."`. -/
def ZkClient.watchPath (zkc : ZkClient) (path : String) : String :=
  if path ≠ "" ∧ path ≠ "." then zkc.rootPath ++ path else zkc.rootPath

/-- The synchronous part of `zkClient.watchChildren`: the `connected`
guard followed by the `ChildrenW` call; on success the watch is armed. -/
def ZkClient.armWatch (conn : ZkConnector) (zkc : ZkClient) (path : String) :
    Except String Unit :=
  if !zkc.connected then Except.error "Not connected to server."
  else
    match conn.childrenWResult (zkc.watchPath path) with
    | Except.error e => Except.error e
    | Except.ok _ => Except.ok ()

/-- The body of the watch goroutine for one firing: report the event
error to the error watcher if registered, then, for a
`NodeChildrenChanged` event, invoke the children watcher with the
triggering path (`e.Path`).  The order of the emitted actions is the
order of the statements in the goroutine. -/
def ZkClient.handleWatchEvent (zkc : ZkClient) (e : ZkEvent) : List ZkAction :=
  (match e.err with
   | some msg => if zkc.hasErrorWatcher then [ZkAction.errorCbCall msg] else []
   | none => []) ++
  (match e.type with
   | ZkEventType.eventNodeChildrenChanged =>
       if zkc.hasChildrenWatcher then [ZkAction.childrenCbCall e.path] else []
   | ZkEventType.eventNone => [])

/-- The chain of watch goroutines spawned by `watchChildren`, given the
sequence of events (one per armed watch, since each arming creates a
fresh event channel consumed once).  After handling the event the
goroutine unconditionally calls `watchChildren(path)` again (recorded
as a `rearmCall`); if that re-arm fails the error goes to the error
watcher and the chain ends, otherwise the next goroutine runs. -/
def ZkClient.watchFire (conn : ZkConnector) (zkc : ZkClient) (path : String) :
    List ZkEvent → List ZkAction
  | [] => []
  | e :: rest =>
    zkc.handleWatchEvent e ++ [ZkAction.rearmCall path] ++
      (match ZkClient.armWatch conn zkc path with
       | Except.error err =>
           if zkc.hasErrorWatcher then [ZkAction.errorCbCall err] else []
       | Except.ok _ => ZkClient.watchFire conn zkc path rest)

/-- `zkClient.watchChildren` over a sequence of firings: arm the watch
(connected guard, `ChildrenW`); on success return the trace of the
self-perpetuating goroutine chain. -/
def ZkClient.watchChildren (conn : ZkConnector) (zkc : ZkClient) (path : String)
    (events : List ZkEvent) : Except String (List ZkAction) :=
  match ZkClient.armWatch conn zkc path with
  | Except.error e => Except.error e
  | Except.ok _ => Except.ok (ZkClient.watchFire conn zkc path events)

/-! ### Scheduler driver (modelled from the spec) -/

/-- Modelled from the spec: the scheduler package's driver status enum
(`mesos.Status`), missing from the sources; lifecycle states of the
driver. -/
inductive Status where
  | DRIVER_NOT_STARTED
  | DRIVER_RUNNING
  | DRIVER_STOPPED
  | DRIVER_ABORTED
deriving DecidableEq, Repr

/-- Modelled from the spec: the `MesosSchedulerDriver` struct, whose
implementation file is missing from the sources (only its test file is
present).  `stopChClosed` models whether the stop signal channel has
been closed. -/
structure MesosSchedulerDriver where
  status : Status
  stopped : Bool
  connected : Bool
  messengerStarted : Bool
  stopChClosed : Bool
deriving DecidableEq, Repr

/-- Modelled from the spec: the messenger as seen by the driver — whether
its `Start` errors and whether `Send` errors. -/
structure Messenger where
  startErr : Bool
  sendErr : Bool
deriving DecidableEq, Repr

/-- Modelled from the spec: a freshly constructed driver — status
`NOT_STARTED`, `stopped = true`, not connected. -/
def newMesosSchedulerDriver : MesosSchedulerDriver :=
  { status := Status.DRIVER_NOT_STARTED, stopped := true, connected := false,
    messengerStarted := false, stopChClosed := false }

/-- Modelled from the spec: `OfferID`. -/
structure OfferID where
  value : String
deriving DecidableEq, Repr

/-- Modelled from the spec: `TaskID`. -/
structure TaskID where
  value : String
deriving DecidableEq, Repr

/-- Modelled from the spec: the parts of `TaskInfo` the driver passes
through into the launch message. -/
structure TaskInfo where
  name : String
  taskId : TaskID
  slaveId : String
deriving DecidableEq, Repr

/-- Modelled from the spec: offer `Filters`. -/
structure Filters where
  refuseSeconds : Nat
deriving DecidableEq, Repr

/-- Modelled from the spec: `Start()`.  Missing implementation
(scheduler package).  If already past `NOT_STARTED` it returns the
current status unchanged; if the messenger fails to start it rolls back
and returns `NOT_STARTED` with the state unchanged.  The
registration-send-failure branch follows the repository's own test
`TestSchedulerDriverStartWithRegistrationFailure`, which pins a
rollback — status stays `NOT_STARTED`, the messenger is stopped and
`stopped` remains true — where the spec text instead claims the driver
reports `RUNNING`.  On full success the driver becomes `RUNNING` with
`stopped = false`. -/
def MesosSchedulerDriver.start (m : Messenger) (d : MesosSchedulerDriver) :
    Status × MesosSchedulerDriver :=
  if d.status ≠ Status.DRIVER_NOT_STARTED then (d.status, d)
  else if m.startErr then (d.status, d)
  else if m.sendErr then (d.status, { d with messengerStarted := false })
  else (Status.DRIVER_RUNNING,
        { d with status := Status.DRIVER_RUNNING, stopped := false,
                 messengerStarted := true })

/-- Modelled from the spec: `Stop(failover)`.  Missing implementation
(scheduler package).  If not running it returns the current status
unchanged; otherwise it closes the stop channel, stops the messenger,
sets `stopped = true` and status `STOPPED`.  The third component records
whether an explicit unregistration was sent (`failover = true`
suppresses it). -/
def MesosSchedulerDriver.stop (failover : Bool) (d : MesosSchedulerDriver) :
    Status × MesosSchedulerDriver × Bool :=
  if d.status ≠ Status.DRIVER_RUNNING then (d.status, d, false)
  else (Status.DRIVER_STOPPED,
        { d with status := Status.DRIVER_STOPPED, stopped := true,
                 stopChClosed := true, messengerStarted := false },
        !failover)

/-- Modelled from the spec: `Abort()`.  Missing implementation
(scheduler package).  Only meaningful while `RUNNING`: marks
`connected = false`, stops the messenger, closes the stop channel, sets
`stopped = true` and status `ABORTED`. -/
def MesosSchedulerDriver.abort (d : MesosSchedulerDriver) :
    Status × MesosSchedulerDriver :=
  if d.status ≠ Status.DRIVER_RUNNING then (d.status, d)
  else (Status.DRIVER_ABORTED,
        { d with status := Status.DRIVER_ABORTED, connected := false,
                 stopped := true, stopChClosed := true, messengerStarted := false })

/-- Modelled from the spec: `Join()`.  Missing implementation (scheduler
package).  If the driver is not running it returns the current status
immediately (`some`); if it is running it blocks on the stop channel —
`none` models "blocked", and once the channel is closed it returns the
final status. -/
def MesosSchedulerDriver.join (d : MesosSchedulerDriver) : Option Status :=
  if d.status ≠ Status.DRIVER_RUNNING then some d.status
  else if d.stopChClosed then some d.status
  else none

/-- Modelled from the spec: `LaunchTasks(offerId, tasks, filters)`.
Missing implementation (scheduler package).  If not running it returns
the current status without side effects; otherwise it builds and sends
the launch message and returns the running status even when the send
fails — the third component records whether the send failed (logged,
fire-and-forget). -/
def MesosSchedulerDriver.launchTasks (m : Messenger) (d : MesosSchedulerDriver)
    (offerId : OfferID) (tasks : List TaskInfo) (filters : Filters) :
    Status × MesosSchedulerDriver × Bool :=
  if d.status ≠ Status.DRIVER_RUNNING then (d.status, d, false)
  else (d.status, d, m.sendErr)

/-- Modelled from the spec: `KillTask(taskId)`.  Missing implementation
(scheduler package).  Same shape as `LaunchTasks`: pre-start guard,
then fire-and-forget send. -/
def MesosSchedulerDriver.killTask (m : Messenger) (d : MesosSchedulerDriver)
    (taskId : TaskID) : Status × MesosSchedulerDriver × Bool :=
  if d.status ≠ Status.DRIVER_RUNNING then (d.status, d, false)
  else (d.status, d, m.sendErr)

/-! ### Concrete fixtures used by witnesses -/

/-- A connector whose `Children` returns `{"x","a","d"}`, whose
`ChildrenW` succeeds, and whose `Get` returns a small payload. -/
def connFix : ZkConnector :=
  { childrenResult := fun _ => Except.ok ["x", "a", "d"],
    childrenWResult := fun _ => Except.ok ["x", "a", "d"],
    getResult := fun _ => Except.ok [1, 2, 3] }

/-- A connected client with both watchers registered, rooted at
`"/test"`. -/
def clientConnFix : ZkClient :=
  { hosts := ["localhost:2181"], connTimeoutSeconds := 5, connected := true,
    rootPath := "/test", hasChildrenWatcher := true, hasErrorWatcher := true }

/-- The same client before any session exists. -/
def clientNoSessionFix : ZkClient :=
  { hosts := ["localhost:2181"], connTimeoutSeconds := 5, connected := false,
    rootPath := "/test", hasChildrenWatcher := true, hasErrorWatcher := true }

/-- A clean children-changed firing at `"/test"`. -/
def evChildrenFix : ZkEvent :=
  { state := ZkSessionState.stateUnknown, type := ZkEventType.eventNodeChildrenChanged,
    path := "/test", err := none }

/-- A session-disconnected event. -/
def evDisconnectedFix : ZkEvent :=
  { state := ZkSessionState.stateDisconnected, type := ZkEventType.eventNone,
    path := "", err := none }

/-- A driver in the `RUNNING` state with the stop channel still open. -/
def runningDriverFix : MesosSchedulerDriver :=
  { status := Status.DRIVER_RUNNING, stopped := false, connected := true,
    messengerStarted := true, stopChClosed := false }

/-- A messenger whose `Start` succeeds but whose `Send` fails. -/
def sendFailMessenger : Messenger := { startErr := false, sendErr := true }

/-- A messenger whose `Start` fails. -/
def startFailMessenger : Messenger := { startErr := true, sendErr := false }

/-- A connect environment that would dial successfully but deliver no
events (irrelevant when the client is already connected). -/
def envFix : ZkConnectEnv := { dialErr := none, eventsBeforeTimeout := [] }

/-- A concrete offer id. -/
def offerFix : OfferID := { value := "offer-1" }

/-- A concrete task id. -/
def taskIdFix : TaskID := { value := "simpe-task-1" }

/-- A concrete task. -/
def taskFix : TaskInfo :=
  { name := "simple-task", taskId := taskIdFix, slaveId := "slave-1" }

/-- Concrete filters. -/
def filtersFix : Filters := { refuseSeconds := 0 }

/-! ### Helper lemmas -/

/-- `lexLe` is total. -/
theorem lexLe_total : ∀ as bs : List Char, lexLe as bs = true ∨ lexLe bs as = true
  | [], _ => Or.inl rfl
  | _ :: _, [] => Or.inr rfl
  | a :: as, b :: bs => by
    rcases Nat.lt_trichotomy a.toNat b.toNat with h | h | h
    · left; simp [lexLe, h]
    · have h1 : ¬ a.toNat < b.toNat := by omega
      have h2 : ¬ b.toNat < a.toNat := by omega
      simpa [lexLe, h1, h2] using lexLe_total as bs
    · right; simp [lexLe, h]

/-- `lexLe` is transitive. -/
theorem lexLe_trans : ∀ as bs cs : List Char,
    lexLe as bs = true → lexLe bs cs = true → lexLe as cs = true
  | [], _, _, _, _ => rfl
  | _ :: _, [], _, h1, _ => by simp [lexLe] at h1
  | _ :: _, _ :: _, [], _, h2 => by simp [lexLe] at h2
  | a :: as, b :: bs, c :: cs, h1, h2 => by
    simp only [lexLe] at h1 h2 ⊢
    rcases Nat.lt_trichotomy a.toNat b.toNat with hab | hab | hab
    · rcases Nat.lt_trichotomy b.toNat c.toNat with hbc | hbc | hbc
      · have hac : a.toNat < c.toNat := by omega
        simp [hac]
      · have hac : a.toNat < c.toNat := by omega
        simp [hac]
      · have h3 : ¬ b.toNat < c.toNat := by omega
        simp [h3, hbc] at h2
    · have h3 : ¬ a.toNat < b.toNat := by omega
      have h4 : ¬ b.toNat < a.toNat := by omega
      rw [if_neg h3, if_neg h4] at h1
      rcases Nat.lt_trichotomy b.toNat c.toNat with hbc | hbc | hbc
      · have hac : a.toNat < c.toNat := by omega
        simp [hac]
      · have h5 : ¬ b.toNat < c.toNat := by omega
        have h6 : ¬ c.toNat < b.toNat := by omega
        rw [if_neg h5, if_neg h6] at h2
        have h7 : ¬ a.toNat < c.toNat := by omega
        have h8 : ¬ c.toNat < a.toNat := by omega
        rw [if_neg h7, if_neg h8]
        exact lexLe_trans as bs cs h1 h2
      · have h5 : ¬ b.toNat < c.toNat := by omega
        simp [h5, hbc] at h2
    · have h3 : ¬ a.toNat < b.toNat := by omega
      simp [h3, hab] at h1

/-- The watch-goroutine chain over clean children-changed firings: each
firing yields the callback on the triggering path followed by a re-arm
of the same path. -/
theorem watchFire_clean (conn : ZkConnector) (zkc : ZkClient) (path : String)
    (harm : ZkClient.armWatch conn zkc path = Except.ok ())
    (hw : zkc.hasChildrenWatcher = true) :
    ∀ events : List ZkEvent,
      (∀ e ∈ events, e.type = ZkEventType.eventNodeChildrenChanged ∧ e.err = none) →
      ZkClient.watchFire conn zkc path events =
        (events.map fun e =>
          [ZkAction.childrenCbCall e.path, ZkAction.rearmCall path]).flatten
  | [], _ => rfl
  | e :: rest, hev => by
    have he := hev e (List.mem_cons_self e rest)
    have ihr := watchFire_clean conn zkc path harm hw rest
      (fun x hx => hev x (List.mem_cons_of_mem e hx))
    simp [ZkClient.watchFire, ZkClient.handleWatchEvent, he.1, he.2, harm, hw, ihr]

/-! ### Claim theorems -/

/-- Claim C6: `connect` is idempotent — on an already-connected client it
returns success immediately, performs no new connection attempt (the
dial flag is `false`), and leaves `connected = true`. -/
theorem connect_idempotent (env : ZkConnectEnv) (zkc : ZkClient)
    (h : zkc.connected = true) :
    ZkClient.connect env zkc = ((none, zkc), false) ∧
    ((ZkClient.connect env zkc).1.2).connected = true := by
  refine ⟨by simp [ZkClient.connect, h], ?_⟩
  simp [ZkClient.connect, h]

/-- Claim C6 witness: a concrete connected client. -/
theorem connect_idempotent_witness :
    ZkClient.connect envFix clientConnFix = ((none, clientConnFix), false) ∧
    ((ZkClient.connect envFix clientConnFix).1.2).connected = true :=
  connect_idempotent envFix clientConnFix rfl

/-- Claim C7: on a connected client, `list` returns the children sorted
ascending (a sorted permutation of what the connector returned); on a
client without a session it fails with the not-connected error. -/
theorem list_sorted_and_guard (conn : ZkConnector) (zkc : ZkClient) (path : String) :
    (zkc.connected = false →
      ZkClient.list conn zkc path =
        Except.error "Unable to list children, client not connected.") ∧
    (∀ cs, zkc.connected = true → conn.childrenResult path = Except.ok cs →
      ZkClient.list conn zkc path = Except.ok (sortStrings cs) ∧
      List.Sorted strLe (sortStrings cs) ∧ (sortStrings cs).Perm cs) := by
  constructor
  · intro h
    simp [ZkClient.list, h]
  · intro cs h hcs
    refine ⟨by simp [ZkClient.list, h, hcs], ?_, ?_⟩
    · haveI : IsTotal String strLe := ⟨fun a b => lexLe_total a.data b.data⟩
      haveI : IsTrans String strLe := ⟨fun a b c => lexLe_trans a.data b.data c.data⟩
      exact List.sorted_insertionSort strLe cs
    · exact List.perm_insertionSort strLe cs

/-- Claim C7 witness: children `{"x","a","d"}` come back as
`["a","d","x"]`, and a session-less client gets the not-connected
error. -/
theorem list_sorted_and_guard_witness :
    ZkClient.list connFix clientNoSessionFix "/test" =
      Except.error "Unable to list children, client not connected." ∧
    ZkClient.list connFix clientConnFix "/test" = Except.ok ["a", "d", "x"] := by
  refine ⟨(list_sorted_and_guard connFix clientNoSessionFix "/test").1 rfl, ?_⟩
  have h := ((list_sorted_and_guard connFix clientConnFix "/test").2
    ["x", "a", "d"] rfl rfl).1
  rw [h]; rfl

/-- Claim C8: `watchChildren` fails with the not-connected error when no
session exists; once armed, every children-changed firing invokes the
registered callback with the triggering path and then re-arms the watch
for the same path, so every later change still triggers the callback. -/
theorem watchChildren_self_rearming (conn : ZkConnector) (zkc : ZkClient)
    (path : String) (events : List ZkEvent) :
    (zkc.connected = false →
      ZkClient.watchChildren conn zkc path events =
        Except.error "Not connected to server.") ∧
    (ZkClient.armWatch conn zkc path = Except.ok () →
      zkc.hasChildrenWatcher = true →
      (∀ e ∈ events, e.type = ZkEventType.eventNodeChildrenChanged ∧ e.err = none) →
      ZkClient.watchChildren conn zkc path events =
        Except.ok ((events.map fun e =>
          [ZkAction.childrenCbCall e.path, ZkAction.rearmCall path]).flatten)) := by
  constructor
  · intro h
    simp [ZkClient.watchChildren, ZkClient.armWatch, h]
  · intro harm hw hev
    simp [ZkClient.watchChildren, harm, watchFire_clean conn zkc path harm hw events hev]

/-- Claim C8 witness: two consecutive children-changed firings on the
same path both reach the callback, each followed by a re-arm; the
session-less client errors. -/
theorem watchChildren_self_rearming_witness :
    ZkClient.watchChildren connFix clientNoSessionFix "." [evChildrenFix] =
      Except.error "Not connected to server." ∧
    ZkClient.watchChildren connFix clientConnFix "." [evChildrenFix, evChildrenFix] =
      Except.ok [ZkAction.childrenCbCall "/test", ZkAction.rearmCall ".",
                 ZkAction.childrenCbCall "/test", ZkAction.rearmCall "."] := by
  refine ⟨(watchChildren_self_rearming connFix clientNoSessionFix "." [evChildrenFix]).1 rfl, ?_⟩
  have h := (watchChildren_self_rearming connFix clientConnFix "."
    [evChildrenFix, evChildrenFix]).2 rfl rfl (by decide)
  rw [h]; rfl

/-- Claim C9: at a children-changed firing the goroutine invokes the
children callback first and only then re-arms the watch — the trace
places the callback call strictly before the re-arm, so a blocking
callback does prevent re-arming (the claim asserts the opposite
order). -/
theorem watchFire_callback_precedes_rearm :
    ZkClient.watchFire connFix clientConnFix "." [evChildrenFix] =
      [ZkAction.childrenCbCall "/test", ZkAction.rearmCall "."] := rfl

/-- Claim C10: `disconnect` always returns `nil` and changes nothing; a
`Disconnected` or `Expired` session event leaves the client state (and
so `connected`) unchanged; and while `connected = true`, `list`, `data`
and the `watchChildren` arming all pass their not-connected guard and
behave according to the connector alone. -/
theorem disconnect_noop_connected_sticky (zkc : ZkClient) (e : ZkEvent)
    (conn : ZkConnector) (path : String) :
    zkc.disconnect = (none, zkc) ∧
    ((e.state = ZkSessionState.stateDisconnected ∨
        e.state = ZkSessionState.stateExpired) →
      (zkc.handleSessionEvent e).1 = zkc) ∧
    (zkc.connected = true →
      ZkClient.list conn zkc path = (match conn.childrenResult path with
        | Except.error err => Except.error err
        | Except.ok cs => Except.ok (sortStrings cs)) ∧
      ZkClient.data conn zkc path = conn.getResult path ∧
      ZkClient.armWatch conn zkc path =
        (match conn.childrenWResult (zkc.watchPath path) with
          | Except.error err => Except.error err
          | Except.ok _ => Except.ok ())) := by
  refine ⟨rfl, ?_, ?_⟩
  · rintro (h | h) <;> simp [ZkClient.handleSessionEvent, ZkClient.disconnect, h]
  · intro h
    refine ⟨?_, ?_, ?_⟩ <;> simp [ZkClient.list, ZkClient.data, ZkClient.armWatch, h]

/-- Claim C10 witness: a connected client keeps `connected = true`
through a `Disconnected` event, and its operations still pass the
guard. -/
theorem disconnect_noop_connected_sticky_witness :
    clientConnFix.disconnect = (none, clientConnFix) ∧
    (clientConnFix.handleSessionEvent evDisconnectedFix).1 = clientConnFix ∧
    ZkClient.list connFix clientConnFix "/x" = Except.ok ["a", "d", "x"] ∧
    ZkClient.data connFix clientConnFix "/x" = Except.ok [1, 2, 3] ∧
    ZkClient.armWatch connFix clientConnFix "/x" = Except.ok () := by
  have h := disconnect_noop_connected_sticky clientConnFix evDisconnectedFix connFix "/x"
  refine ⟨h.1, h.2.1 (Or.inl rfl), ?_, ?_, ?_⟩
  · rw [(h.2.2 rfl).1]; rfl
  · exact ((h.2.2 rfl).2.1).trans rfl
  · rw [(h.2.2 rfl).2.2]; rfl

/-- Claim C1 counterexample: with a messenger that starts fine but whose
`Send` fails, `Start()` on a fresh driver returns `NOT_STARTED`, not
`RUNNING` — matching `TestSchedulerDriverStartWithRegistrationFailure`
and refuting the claim that the send failure is non-fatal to `Start`. -/
theorem start_registrationSendFailure_not_running :
    (newMesosSchedulerDriver.start sendFailMessenger).1 = Status.DRIVER_NOT_STARTED ∧
    (newMesosSchedulerDriver.start sendFailMessenger).1 ≠ Status.DRIVER_RUNNING := by
  decide

/-- Claim C1 (amended): if the messenger starts but the registration
send fails, `Start()` rolls back — it returns `NOT_STARTED`, the status
field stays `NOT_STARTED` and `stopped` remains `true`. -/
theorem start_registrationSendFailure_rollback (d : MesosSchedulerDriver)
    (m : Messenger) (hs : d.status = Status.DRIVER_NOT_STARTED)
    (hstop : d.stopped = true) (h1 : m.startErr = false) (h2 : m.sendErr = true) :
    (d.start m).1 = Status.DRIVER_NOT_STARTED ∧
    (d.start m).2.status = Status.DRIVER_NOT_STARTED ∧
    (d.start m).2.stopped = true := by
  simp [MesosSchedulerDriver.start, hs, hstop, h1, h2]

/-- Claim C1 (amended) witness: the fresh driver with the send-failing
messenger. -/
theorem start_registrationSendFailure_rollback_witness :
    (newMesosSchedulerDriver.start sendFailMessenger).1 = Status.DRIVER_NOT_STARTED ∧
    (newMesosSchedulerDriver.start sendFailMessenger).2.status =
      Status.DRIVER_NOT_STARTED ∧
    (newMesosSchedulerDriver.start sendFailMessenger).2.stopped = true :=
  start_registrationSendFailure_rollback newMesosSchedulerDriver sendFailMessenger
    rfl rfl rfl rfl

/-- Claim C2: if the messenger fails to start, `Start()` rolls back —
it returns `NOT_STARTED`, the driver state is unchanged, so the status
field is `NOT_STARTED` and `stopped` remains `true`. -/
theorem start_messengerFailure_rollback (d : MesosSchedulerDriver) (m : Messenger)
    (hs : d.status = Status.DRIVER_NOT_STARTED) (hstop : d.stopped = true)
    (h1 : m.startErr = true) :
    d.start m = (Status.DRIVER_NOT_STARTED, d) ∧
    (d.start m).2.status = Status.DRIVER_NOT_STARTED ∧
    (d.start m).2.stopped = true := by
  simp [MesosSchedulerDriver.start, hs, hstop, h1]

/-- Claim C2 witness: the fresh driver with the start-failing
messenger. -/
theorem start_messengerFailure_rollback_witness :
    newMesosSchedulerDriver.start startFailMessenger =
      (Status.DRIVER_NOT_STARTED, newMesosSchedulerDriver) ∧
    (newMesosSchedulerDriver.start startFailMessenger).2.status =
      Status.DRIVER_NOT_STARTED ∧
    (newMesosSchedulerDriver.start startFailMessenger).2.stopped = true :=
  start_messengerFailure_rollback newMesosSchedulerDriver startFailMessenger
    rfl rfl rfl

/-- Claim C3: while `RUNNING`, `LaunchTasks` and `KillTask` return
`RUNNING` for any messenger (in particular one whose send fails) and
leave the driver state unchanged. -/
theorem taskControl_fire_and_forget (d : MesosSchedulerDriver) (m : Messenger)
    (offerId : OfferID) (tasks : List TaskInfo) (filters : Filters) (taskId : TaskID)
    (h : d.status = Status.DRIVER_RUNNING) :
    (d.launchTasks m offerId tasks filters).1 = Status.DRIVER_RUNNING ∧
    (d.launchTasks m offerId tasks filters).2.1 = d ∧
    (d.killTask m taskId).1 = Status.DRIVER_RUNNING ∧
    (d.killTask m taskId).2.1 = d := by
  simp [MesosSchedulerDriver.launchTasks, MesosSchedulerDriver.killTask, h]

/-- Claim C3 witness: a running driver with a send-failing messenger. -/
theorem taskControl_fire_and_forget_witness :
    (runningDriverFix.launchTasks sendFailMessenger offerFix [taskFix] filtersFix).1 =
      Status.DRIVER_RUNNING ∧
    (runningDriverFix.launchTasks sendFailMessenger offerFix [taskFix] filtersFix).2.1 =
      runningDriverFix ∧
    (runningDriverFix.killTask sendFailMessenger taskIdFix).1 =
      Status.DRIVER_RUNNING ∧
    (runningDriverFix.killTask sendFailMessenger taskIdFix).2.1 = runningDriverFix :=
  taskControl_fire_and_forget runningDriverFix sendFailMessenger offerFix [taskFix]
    filtersFix taskIdFix rfl

/-- Claim C4: on a driver that was never started, `LaunchTasks`,
`KillTask` and `Join` each return `NOT_STARTED` with no state change,
and `Join` returns immediately (`some`, never the blocked `none`). -/
theorem preStart_guard (d : MesosSchedulerDriver) (m : Messenger) (offerId : OfferID)
    (tasks : List TaskInfo) (filters : Filters) (taskId : TaskID)
    (h : d.status = Status.DRIVER_NOT_STARTED) :
    d.launchTasks m offerId tasks filters = (Status.DRIVER_NOT_STARTED, d, false) ∧
    d.killTask m taskId = (Status.DRIVER_NOT_STARTED, d, false) ∧
    d.join = some Status.DRIVER_NOT_STARTED := by
  simp [MesosSchedulerDriver.launchTasks, MesosSchedulerDriver.killTask,
        MesosSchedulerDriver.join, h]

/-- Claim C4 witness: the fresh driver. -/
theorem preStart_guard_witness :
    newMesosSchedulerDriver.launchTasks sendFailMessenger offerFix [taskFix] filtersFix =
      (Status.DRIVER_NOT_STARTED, newMesosSchedulerDriver, false) ∧
    newMesosSchedulerDriver.killTask sendFailMessenger taskIdFix =
      (Status.DRIVER_NOT_STARTED, newMesosSchedulerDriver, false) ∧
    newMesosSchedulerDriver.join = some Status.DRIVER_NOT_STARTED :=
  preStart_guard newMesosSchedulerDriver sendFailMessenger offerFix [taskFix]
    filtersFix taskIdFix rfl

/-- Claim C5: from `RUNNING`, `Abort` yields terminal `ABORTED` with
`stopped = true` and a subsequent `Join` returns `ABORTED`; `Stop`
yields terminal `STOPPED` and a subsequent `Join` returns `STOPPED`. -/
theorem abort_stop_distinction (d : MesosSchedulerDriver) (failover : Bool)
    (h : d.status = Status.DRIVER_RUNNING) :
    (d.abort).1 = Status.DRIVER_ABORTED ∧
    (d.abort).2.status = Status.DRIVER_ABORTED ∧
    (d.abort).2.stopped = true ∧
    (d.abort).2.join = some Status.DRIVER_ABORTED ∧
    (d.stop failover).1 = Status.DRIVER_STOPPED ∧
    (d.stop failover).2.1.status = Status.DRIVER_STOPPED ∧
    (d.stop failover).2.1.stopped = true ∧
    (d.stop failover).2.1.join = some Status.DRIVER_STOPPED := by
  simp [MesosSchedulerDriver.abort, MesosSchedulerDriver.stop,
        MesosSchedulerDriver.join, h]

/-- Claim C5 witness: a concrete running driver, aborted and stopped. -/
theorem abort_stop_distinction_witness :
    (runningDriverFix.abort).1 = Status.DRIVER_ABORTED ∧
    (runningDriverFix.abort).2.status = Status.DRIVER_ABORTED ∧
    (runningDriverFix.abort).2.stopped = true ∧
    (runningDriverFix.abort).2.join = some Status.DRIVER_ABORTED ∧
    (runningDriverFix.stop false).1 = Status.DRIVER_STOPPED ∧
    (runningDriverFix.stop false).2.1.status = Status.DRIVER_STOPPED ∧
    (runningDriverFix.stop false).2.1.stopped = true ∧
    (runningDriverFix.stop false).2.1.join = some Status.DRIVER_STOPPED :=
  abort_stop_distinction runningDriverFix false rfl

end MesosGo
